import Mathlib

/-!
Verification development for ToothLit, a browser extension that toggles a
forced dark-mode override per domain.

The embedding covers the two scripts of the repository:

* `background.js` — domain resolution (`getDomainFromUrl`), the persisted
  per-domain preference map (`getDomainState` / `setDomainState`) and the
  toolbar-click handler (`handleClick`).
* `contentScript.js` — the page styler (`enableDarkMode` / `disableDarkMode`),
  the guarded window message listener (`handleMessage`) and the
  initial storage check (`initPageStyler`).

JavaScript objects holding only string keys and boolean values are modelled as
association lists (`Store`).  Storage reads that may fail (and are caught and
logged by the code) are modelled with `Except Unit`; a storage write failure is
modelled by a boolean flag.  The effects performed by the click handler are
recorded as an ordered trace of `BgEvent`s.

`getDomainFromUrl` calls the platform URL class (`new URL(url).hostname`),
which is not part of the repository; it is modelled below after the WHATWG URL
standard, restricted to what hostname extraction needs.  Restrictions of the
model: IDNA/punycode conversion is not modelled (hosts are restricted to
printable ASCII), bracketed IPv6 hosts are rejected, and percent-encoding
inside hosts is rejected.  None of the inputs appearing in the claims are
affected by these restrictions.
-/

namespace ToothLit

/-! ## Model of the platform URL class (background.js, getDomainFromUrl)

`new URL(url)` throws on invalid input; `getDomainFromUrl` catches and
returns `null`, modelled by `Option`.  The parser below follows the WHATWG
basic URL parser for the states that determine the hostname: scheme parsing,
the special-scheme slash handling, the file-scheme host rules, authority /
userinfo splitting, host validation (with lowercasing of domain hosts but not
of opaque hosts of non-special schemes) and port validation. -/

/-- A code point acceptable inside a host: printable ASCII that is not a
forbidden host code point (WHATWG forbidden host/domain code points). -/
def validHostChar (c : Char) : Bool :=
  0x20 < c.toNat && c.toNat < 0x7f &&
  !(['#', '%', '/', ':', '<', '>', '?', '@', '[', '\\', ']', '^', '|'].contains c)

/-- A code point acceptable after the first character of a URL scheme. -/
def isSchemeChar (c : Char) : Bool :=
  c.isAlpha || c.isDigit || c = '+' || c = '-' || c = '.'

/-- Accumulates scheme characters until the terminating colon; fails when a
character is not a scheme character or no colon follows. -/
def schemeAux : List Char → List Char → Option (List Char × List Char)
  | _, [] => none
  | acc, c :: rest =>
    if c = ':' then some (acc.reverse, rest)
    else if isSchemeChar c then schemeAux (c :: acc) rest
    else none

/-- Splits a URL into its scheme (which must start with an ASCII letter) and
the remainder after the colon; `none` when the input has no valid scheme. -/
def parseScheme : List Char → Option (List Char × List Char)
  | [] => none
  | c :: rest => if c.isAlpha then schemeAux [c] rest else none

/-- Removes leading and trailing C0 controls and spaces, as the URL parser
does before anything else. -/
def trimC0 (cs : List Char) : List Char :=
  ((cs.dropWhile (fun c => c.toNat ≤ 0x20)).reverse.dropWhile
    (fun c => c.toNat ≤ 0x20)).reverse

/-- Input preprocessing of the URL parser: trim, then remove all ASCII tabs
and newlines. -/
def preprocess (url : String) : List Char :=
  (trimC0 url.data).filter (fun c => !(c = '\t' || c = '\n' || c = '\r'))

/-- Skips the run of slashes after the colon of a special scheme (the special
authority ignore-slashes state; backslashes count as slashes there). -/
def dropSlashes : List Char → List Char
  | [] => []
  | c :: rest => if c = '/' || c = '\\' then dropSlashes rest else c :: rest

/-- Takes the authority part: everything up to the first slash, backslash,
question mark or number sign. -/
def takeAuthority : List Char → List Char
  | [] => []
  | c :: rest =>
    if c = '/' || c = '\\' || c = '?' || c = '#' then []
    else c :: takeAuthority rest

/-- Drops the userinfo: everything up to and including the last commercial at
sign of the authority. -/
def afterLastAt (cs : List Char) : List Char :=
  (cs.reverse.takeWhile (fun c => c ≠ '@')).reverse

/-- Splits host from port at the first colon; `none` when there is no port
separator. -/
def splitFirstColon : List Char → List Char × Option (List Char)
  | [] => ([], none)
  | c :: rest =>
    if c = ':' then ([], some rest)
    else
      let p := splitFirstColon rest
      (c :: p.1, p.2)

/-- A port is valid when absent or made of ASCII digits only (an empty digit
string means the default port). -/
def portOk : Option (List Char) → Bool
  | none => true
  | some ds => ds.all Char.isDigit

/-- Host parsing for an authority: strip userinfo, split off the port, check
the port digits, reject an empty host with a port, reject an empty host
unless the caller allows it, and validate the host code points. -/
def hostFromAuthority (allowEmpty : Bool) (auth : List Char) : Option (List Char) :=
  if portOk (splitFirstColon (afterLastAt auth)).2 then
    if (splitFirstColon (afterLastAt auth)).1.isEmpty then
      if (splitFirstColon (afterLastAt auth)).2.isSome then none
      else if allowEmpty then some [] else none
    else if (splitFirstColon (afterLastAt auth)).1.all validHostChar then
      some (splitFirstColon (afterLastAt auth)).1
    else none
  else none

/-- Is the character a slash or backslash (which the parser treats alike in
special URLs)? -/
def isSlash (c : Char) : Bool := c = '/' || c = '\\'

/-- A Windows drive letter, which the file-scheme host parser treats as the
start of the path rather than as a host. -/
def windowsDriveLetter : List Char → Bool
  | [c, s] => c.isAlpha && (s = ':' || s = '|')
  | _ => false

/-- Host parsing for `file:` URLs: a host appears only after exactly two
slashes; an empty host buffer and a Windows drive letter both yield the empty
host; a colon in the buffer is a forbidden host code point (file URLs carry
no port). -/
def fileHostname : List Char → Option (List Char)
  | c1 :: c2 :: rest2 =>
    if isSlash c1 && isSlash c2 then
      if (takeAuthority rest2).isEmpty then some []
      else if windowsDriveLetter (takeAuthority rest2) then some []
      else if (takeAuthority rest2).all validHostChar then some (takeAuthority rest2)
      else none
    else some []
  | _ => some []

/-- The special schemes of the WHATWG URL standard. -/
def specialSchemes : List String := ["ftp", "file", "http", "https", "ws", "wss"]

/-- Scheme extraction: the lowercased scheme and the remainder after the
colon, or `none` when the input is not an absolute URL. -/
def urlParts (url : String) : Option (String × List Char) :=
  (parseScheme (preprocess url)).map
    (fun p => (⟨p.1.map Char.toLower⟩, p.2))

/-- `new URL(url).hostname`: `none` when the constructor throws.  Domain
hosts of special schemes are lowercased; opaque hosts of non-special schemes
keep their case; a non-special URL without `//` has no host and an empty
hostname. -/
def urlHostname (url : String) : Option String :=
  match urlParts url with
  | none => none
  | some (scheme, rest) =>
    if specialSchemes.contains scheme then
      (if scheme = "file" then fileHostname rest
       else hostFromAuthority false (takeAuthority (dropSlashes rest))).map
        (fun h => ⟨h.map Char.toLower⟩)
    else
      match rest with
      | '/' :: '/' :: rest2 =>
        (hostFromAuthority true (takeAuthority rest2)).map (fun h => ⟨h⟩)
      | _ => some ""

/-- `getDomainFromUrl(url)` from background.js: `new URL(url).hostname`, with
the catch block turning a thrown error into `null`. -/
def getDomainFromUrl (url : String) : Option String := urlHostname url

/-! ## Preference store (background.js, getDomainState / setDomainState)

`browser.storage.local` holds at most one record under the key
`toothlit_settings`, whose value is a map from domain to boolean.  The storage
content is modelled as `Option Store`: `none` when the key is absent,
`some st` when the record exists. -/

/-- The persisted map from domain to enabled flag, as an association list
(first match wins, mirroring JavaScript object key lookup). -/
abbrev Store := List (String × Bool)

/-- Lookup of `domain` in the settings object: `allDomains[domain]`,
`none` when the property is absent. -/
def storeGet (st : Store) (domain : String) : Option Bool :=
  match st with
  | [] => none
  | (k, v) :: rest => if k = domain then some v else storeGet rest domain

/-- Property assignment `allDomains[domain] = isEnabled`: overwrites an
existing entry in place, otherwise appends a new one. -/
def storeSet (st : Store) (domain : String) (v : Bool) : Store :=
  match st with
  | [] => [(domain, v)]
  | (k, w) :: rest =>
    if k = domain then (k, v) :: rest else (k, w) :: storeSet rest domain v

/-- The content of `browser.storage.local` at the key `toothlit_settings`:
`none` when nothing was ever stored under the key. -/
abbrev StorageState := Option Store

/-- `getDomainState(domain)` from background.js.  The argument models the
result of `browser.storage.local.get(SETTINGS_KEY)`: `Except.error` when the
read throws (the catch block logs and returns `false`), `Except.ok st` when it
yields the storage content.  `settings[SETTINGS_KEY] || {}` is `st.getD []`,
and `allDomains[domain] || false` is `(storeGet _ domain).getD false`. -/
def getDomainState (read : Except Unit StorageState) (domain : String) : Bool :=
  match read with
  | Except.error _ => false
  | Except.ok st => ((storeGet (st.getD []) domain).getD false)

/-- `setDomainState(domain, isEnabled)` from background.js: read the whole
settings object, default it to `{}`, assign the key, write the whole object
back.  `failed = true` models a storage read or write that throws: the catch
block logs and the persisted state is left unchanged. -/
def setDomainState (failed : Bool) (st : StorageState) (domain : String)
    (v : Bool) : StorageState :=
  if failed then st else some (storeSet (st.getD []) domain v)

/-! ## Click handler (background.js, browser.action.onClicked listener) -/

/-- The part of a browser tab the listener reads: `tab.url` and `tab.id`. -/
structure Tab where
  url : String
  id : Nat
deriving DecidableEq, Repr

/-- The `action` field of the message posted into the page context. -/
inductive MsgAction where
  | enableDarkMode
  | disableDarkMode
deriving DecidableEq, Repr

/-- The message posted by the injected function:
`{ source: "toothlit-background", action: ... }`. -/
structure PostedMessage where
  source : String
  action : MsgAction
deriving DecidableEq, Repr

/-- The source marker used by background.js and checked by contentScript.js. -/
def toothlitSource : String := "toothlit-background"

/-- One observable effect of the click handler, in the order the handler
performs them.  `notify` records the `postMessage` into the page context;
its `delivered` flag is `false` when `browser.scripting.executeScript`
throws (restricted page) and the catch block swallows the error. -/
inductive BgEvent where
  | getState (domain : String) (result : Bool)
  | setState (domain : String) (value : Bool)
  | setIcon (tabId : Nat) (enabled : Bool)
  | notify (tabId : Nat) (msg : PostedMessage) (delivered : Bool)
deriving DecidableEq, Repr

/-- The `browser.action.onClicked` listener.  Returns the new storage content
and the ordered trace of effects.  `if (!domain) return;` aborts both when
`getDomainFromUrl` returned `null` and when it returned the empty string
(both are falsy).  `deliveryFails` models `executeScript` throwing; storage
and icon updates have already happened and are not rolled back. -/
def handleClick (deliveryFails : Bool) (st : StorageState) (tab : Tab) :
    StorageState × List BgEvent :=
  match getDomainFromUrl tab.url with
  | none => (st, [])
  | some domain =>
    if domain = "" then (st, [])
    else
      let currentState := getDomainState (Except.ok st) domain
      let newState := !currentState
      (setDomainState false st domain newState,
       [BgEvent.getState domain currentState,
        BgEvent.setState domain newState,
        BgEvent.setIcon tab.id newState,
        BgEvent.notify tab.id
          ⟨toothlitSource,
           if newState then MsgAction.enableDarkMode
           else MsgAction.disableDarkMode⟩
          (!deliveryFails)])

/-! ## Page styler (contentScript.js) -/

/-- The page document state the content script manipulates: whether the
`color-scheme: dark` style property is set on the document element, and how
many elements with the reserved id `toothlit-dark-mode-fallback-css` are
attached to the document. -/
structure PageState where
  colorSchemeDark : Bool
  fallbackCount : Nat
deriving DecidableEq, Repr

/-- `enableDarkMode()` from contentScript.js: set the `color-scheme: dark`
property, then append a fallback stylesheet link only when
`document.getElementById` finds none (no element with the reserved id). -/
def enableDarkMode (p : PageState) : PageState :=
  { colorSchemeDark := true
    fallbackCount :=
      if p.fallbackCount = 0 then p.fallbackCount + 1 else p.fallbackCount }

/-- `disableDarkMode()` from contentScript.js: remove the `color-scheme`
property, then remove the fallback stylesheet element when
`document.getElementById` finds one. -/
def disableDarkMode (p : PageState) : PageState :=
  { colorSchemeDark := false
    fallbackCount :=
      if p.fallbackCount = 0 then p.fallbackCount else p.fallbackCount - 1 }

/-- A page with no override applied: the Light state. -/
def lightPage : PageState := ⟨false, 0⟩

/-- The `event.data` of an inbound window message, as far as the listener
inspects it: the `source` and `action` properties when they hold strings
(`none` models an absent property or a non-string value, both of which fail
the strict equality checks of the listener). -/
structure MessageData where
  source : Option String
  action : Option String
deriving DecidableEq, Repr

/-- An inbound window message event: whether `event.source === window`, and
its data (`none` models the falsy values rejected by `event.data &&`). -/
structure MessageEvent where
  sourceIsWindow : Bool
  data : Option MessageData
deriving DecidableEq, Repr

/-- The window message listener of contentScript.js: act only when the event
source is the window of the page itself and the data carries the
`toothlit-background` source marker; then dispatch on the action string. -/
def handleMessage (ev : MessageEvent) (p : PageState) : PageState :=
  if ev.sourceIsWindow then
    match ev.data with
    | none => p
    | some d =>
      if d.source = some toothlitSource then
        if d.action = some "enableDarkMode" then enableDarkMode p
        else if d.action = some "disableDarkMode" then disableDarkMode p
        else p
      else p
  else p

/-- The initial storage check of contentScript.js: read
`browser.storage.local.get(SETTINGS_KEY)`; on success enable dark mode when
the entry of the current domain is truthy; the catch block leaves the page
unchanged. -/
def initPageStyler (read : Except Unit StorageState) (domain : String)
    (p : PageState) : PageState :=
  match read with
  | Except.error _ => p
  | Except.ok st =>
    if (storeGet (st.getD []) domain).getD false then enableDarkMode p else p

/-! ## Helper lemmas -/

/-- Looking up the key just assigned yields the assigned value. -/
theorem storeGet_storeSet_self (st : Store) (domain : String) (v : Bool) :
    storeGet (storeSet st domain v) domain = some v := by
  induction st with
  | nil => simp [storeSet, storeGet]
  | cons hd tl ih =>
    obtain ⟨k, w⟩ := hd
    by_cases h : k = domain
    · simp [storeSet, storeGet, h]
    · simp [storeSet, storeGet, h, ih]

/-- A get after a successful set of the same domain returns the value set. -/
theorem getDomainState_setDomainState (st : StorageState) (domain : String)
    (v : Bool) :
    getDomainState (Except.ok (setDomainState false st domain v)) domain = v := by
  unfold getDomainState setDomainState
  simp [storeGet_storeSet_self]

/-- `Char.ofNat` of a scalar value below the surrogate range decodes back. -/
theorem toNat_ofNat_of_lt {n : Nat} (h : n < 0xd800) : (Char.ofNat n).toNat = n := by
  rw [Char.ofNat, dif_pos (Or.inl h)]
  rfl

/-- ASCII lowercasing is idempotent. -/
theorem toLower_idem (c : Char) : (c.toLower).toLower = c.toLower := by
  unfold Char.toLower
  by_cases h : c.toNat ≥ 65 ∧ c.toNat ≤ 90
  · rw [if_pos h]
    have hn : (Char.ofNat (c.toNat + 32)).toNat = c.toNat + 32 :=
      toNat_ofNat_of_lt (by omega)
    rw [if_neg (by omega)]
  · rw [if_neg h, if_neg h]

/-- A valid host character is not a colon. -/
theorem validHostChar_ne_colon {c : Char} (h : validHostChar c = true) : c ≠ ':' := by
  intro hc
  subst hc
  simp [validHostChar] at h

/-- Lowercasing a valid host character cannot produce a colon. -/
theorem toLower_validHostChar_ne_colon {c : Char} (h : validHostChar c = true) :
    Char.toLower c ≠ ':' := by
  unfold Char.toLower
  by_cases hu : c.toNat ≥ 65 ∧ c.toNat ≤ 90
  · rw [if_pos hu]
    intro hc
    have hn : (Char.ofNat (c.toNat + 32)).toNat = c.toNat + 32 :=
      toNat_ofNat_of_lt (by omega)
    have : (':' : Char).toNat = 58 := by decide
    rw [hc] at hn
    omega
  · rw [if_neg hu]
    exact validHostChar_ne_colon h

/-- Every host produced from an authority consists of valid host characters. -/
theorem hostFromAuthority_valid {b : Bool} {a h : List Char}
    (hh : hostFromAuthority b a = some h) : h.all validHostChar = true := by
  unfold hostFromAuthority at hh
  split at hh
  · split at hh
    · split at hh
      · exact absurd hh (by simp)
      · split at hh
        · obtain rfl : ([] : List Char) = h := Option.some.inj hh
          rfl
        · exact absurd hh (by simp)
    · split at hh
      · obtain rfl := Option.some.inj hh
        assumption
      · exact absurd hh (by simp)
  · exact absurd hh (by simp)

/-- Every host produced by the file-scheme host parser consists of valid host
characters. -/
theorem fileHostname_valid {rest h : List Char}
    (hh : fileHostname rest = some h) : h.all validHostChar = true := by
  unfold fileHostname at hh
  split at hh
  · split at hh
    · split at hh
      · obtain rfl := Option.some.inj hh
        rfl
      · split at hh
        · obtain rfl := Option.some.inj hh
          rfl
        · split at hh
          · obtain rfl := Option.some.inj hh
            assumption
          · exact absurd hh (by simp)
    · obtain rfl := Option.some.inj hh
      rfl
  · obtain rfl := Option.some.inj hh
    rfl

/-- No hostname returned by the URL model contains a colon: the port is never
part of the hostname. -/
theorem getDomainFromUrl_no_colon {url : String} {h : String}
    (hh : getDomainFromUrl url = some h) : ¬ ':' ∈ h.data := by
  unfold getDomainFromUrl urlHostname at hh
  split at hh
  · exact absurd hh (by simp)
  · rename_i scheme rest heq
    split at hh
    · rw [Option.map_eq_some'] at hh
      obtain ⟨l, hl, rfl⟩ := hh
      intro hmem
      simp only [String.data] at hmem
      rw [List.mem_map] at hmem
      obtain ⟨c0, hc0, hlow⟩ := hmem
      have hval : l.all validHostChar = true := by
        split at hl
        · exact fileHostname_valid hl
        · exact hostFromAuthority_valid hl
      rw [List.all_eq_true] at hval
      exact toLower_validHostChar_ne_colon (hval c0 hc0) hlow
    · split at hh
      · rw [Option.map_eq_some'] at hh
        obtain ⟨l, hl, rfl⟩ := hh
        intro hmem
        simp only [String.data] at hmem
        have hval := hostFromAuthority_valid hl
        rw [List.all_eq_true] at hval
        exact validHostChar_ne_colon (hval _ hmem) rfl
      · obtain rfl := Option.some.inj hh
        intro hmem
        simp at hmem

/-- Hostnames of special-scheme URLs are already lowercase: lowercasing the
returned characters changes nothing. -/
theorem getDomainFromUrl_special_lower {url scheme : String} {rest : List Char}
    {h : String} (hparts : urlParts url = some (scheme, rest))
    (hspec : specialSchemes.contains scheme = true)
    (hh : getDomainFromUrl url = some h) :
    h.data.map Char.toLower = h.data := by
  unfold getDomainFromUrl urlHostname at hh
  rw [hparts] at hh
  dsimp only at hh
  rw [if_pos hspec] at hh
  rw [Option.map_eq_some'] at hh
  obtain ⟨l, hl, rfl⟩ := hh
  simp only [String.data]
  rw [List.map_map]
  exact List.map_congr_left (fun c _ => toLower_idem c)

/-- Unfolding of the click handler on a tab whose URL resolves to a nonempty
domain: the six steps of the toggle algorithm, for either delivery outcome. -/
theorem handleClick_eq (df : Bool) (st : StorageState) (tab : Tab)
    (domain : String) (hres : getDomainFromUrl tab.url = some domain)
    (hne : domain ≠ "") :
    handleClick df st tab =
      (setDomainState false st domain (!getDomainState (Except.ok st) domain),
       [BgEvent.getState domain (getDomainState (Except.ok st) domain),
        BgEvent.setState domain (!getDomainState (Except.ok st) domain),
        BgEvent.setIcon tab.id (!getDomainState (Except.ok st) domain),
        BgEvent.notify tab.id
          ⟨toothlitSource,
           if !getDomainState (Except.ok st) domain then MsgAction.enableDarkMode
           else MsgAction.disableDarkMode⟩
          (!df)]) := by
  unfold handleClick
  rw [hres]
  dsimp only
  rw [if_neg hne]

/-! ## Claims -/

/-- C1, counterexample: a click on a tab showing `about:blank` carries a URL
whose resolved domain is non-null (it is the empty string), yet the handler
performs none of the six steps: the store is unchanged and the trace is
empty, because the falsy guard `if (!domain) return;` also aborts on the
empty string. -/
theorem clickSteps_counterexample :
    getDomainFromUrl "about:blank" = some "" ∧
    handleClick false (some []) ⟨"about:blank", 3⟩ = (some [], []) := by
  constructor
  · decide
  · decide

/-- C1, amended: for every click activation carrying a tab with a URL whose
resolved domain is non-null and nonempty, the handler performs exactly, in
this order: read the current stored state of the domain, persist the
inverted value, update the icon of the tab to the inverted value, and
deliver a one-shot notification whose action is the enable variant when the
new state is true and the disable variant when it is false (domain
resolution itself is the hypothesis `hres`). -/
theorem clickSteps (st : StorageState) (tab : Tab) (domain : String)
    (hres : getDomainFromUrl tab.url = some domain) (hne : domain ≠ "") :
    handleClick false st tab =
      (setDomainState false st domain (!getDomainState (Except.ok st) domain),
       [BgEvent.getState domain (getDomainState (Except.ok st) domain),
        BgEvent.setState domain (!getDomainState (Except.ok st) domain),
        BgEvent.setIcon tab.id (!getDomainState (Except.ok st) domain),
        BgEvent.notify tab.id
          ⟨toothlitSource,
           if !getDomainState (Except.ok st) domain then MsgAction.enableDarkMode
           else MsgAction.disableDarkMode⟩
          true]) :=
  handleClick_eq false st tab domain hres hne

/-- C1, witness: the amended claim applied to a click on
`https://news.example/a` with empty storage. -/
theorem clickSteps_witness :
    handleClick false none ⟨"https://news.example/a", 7⟩ =
      (setDomainState false none "news.example"
         (!getDomainState (Except.ok none) "news.example"),
       [BgEvent.getState "news.example"
          (getDomainState (Except.ok none) "news.example"),
        BgEvent.setState "news.example"
          (!getDomainState (Except.ok none) "news.example"),
        BgEvent.setIcon 7 (!getDomainState (Except.ok none) "news.example"),
        BgEvent.notify 7
          ⟨toothlitSource,
           if !getDomainState (Except.ok none) "news.example" then
             MsgAction.enableDarkMode
           else MsgAction.disableDarkMode⟩
          true]) :=
  clickSteps none ⟨"https://news.example/a", 7⟩ "news.example"
    (by decide) (by decide)

/-- C2: for every storage content, domain and boolean, a successful
`setDomainState` followed by `getDomainState` returns the boolean that was
set. -/
theorem setGet_roundTrip (st : StorageState) (domain : String) (b : Bool) :
    getDomainState (Except.ok (setDomainState false st domain b)) domain = b :=
  getDomainState_setDomainState st domain b

/-- C3: for a domain with no entry in the stored map, `getDomainState`
returns `false`; and when the storage read throws, `getDomainState` also
returns `false` — its return type is a plain boolean, so the failure is
never surfaced to the caller as an error. -/
theorem getState_default_false (st : StorageState) (domain : String) (e : Unit)
    (habsent : storeGet (st.getD []) domain = none) :
    getDomainState (Except.ok st) domain = false ∧
    getDomainState (Except.error e) domain = false := by
  constructor
  · show (storeGet (st.getD []) domain).getD false = false
    rw [habsent]
    rfl
  · rfl

/-- C3, witness: the theorem applied to empty storage and the domain
`example.com`. -/
theorem getState_default_false_witness :
    getDomainState (Except.ok none) "example.com" = false ∧
    getDomainState (Except.error ()) "example.com" = false :=
  getState_default_false none "example.com" () (by decide)

/-- C4: on a page holding at most one fallback stylesheet element (the id is
reserved, so a page the extension has styled has exactly one and a fresh
page has none), applying the enable transition twice leaves exactly one
fallback element and the `color-scheme: dark` property set; and applying the
disable transition to a page in the Light state is a no-op. -/
theorem enable_idempotent_disable_noop (p q : PageState)
    (hp : p.fallbackCount ≤ 1)
    (hq1 : q.colorSchemeDark = false) (hq2 : q.fallbackCount = 0) :
    (enableDarkMode (enableDarkMode p)).fallbackCount = 1 ∧
    (enableDarkMode (enableDarkMode p)).colorSchemeDark = true ∧
    disableDarkMode q = q := by
  refine ⟨?_, rfl, ?_⟩
  · obtain ⟨cs, fc⟩ := p
    have hfc : fc ≤ 1 := hp
    interval_cases fc
    · rfl
    · rfl
  · obtain ⟨cs, fc⟩ := q
    simp only at hq1 hq2
    subst hq1
    subst hq2
    rfl

/-- C4, witness: the theorem applied to a freshly styled page and a fresh
Light page. -/
theorem enable_idempotent_disable_noop_witness :
    (enableDarkMode (enableDarkMode ⟨true, 1⟩)).fallbackCount = 1 ∧
    (enableDarkMode (enableDarkMode ⟨true, 1⟩)).colorSchemeDark = true ∧
    disableDarkMode ⟨false, 0⟩ = ⟨false, 0⟩ :=
  enable_idempotent_disable_noop ⟨true, 1⟩ ⟨false, 0⟩
    (by decide) (by decide) (by decide)

/-- C5: whenever the message listener changes the page state, the event
source was the window of the page itself and the data carried the
`toothlit-background` source marker; any message failing either check
leaves the page state unchanged. -/
theorem message_guard (ev : MessageEvent) (p : PageState)
    (hch : handleMessage ev p ≠ p) :
    ev.sourceIsWindow = true ∧
    ∃ d, ev.data = some d ∧ d.source = some toothlitSource := by
  unfold handleMessage at hch
  by_cases hw : ev.sourceIsWindow = true
  · refine ⟨hw, ?_⟩
    rw [if_pos hw] at hch
    match hd : ev.data with
    | none =>
      rw [hd] at hch
      exact absurd rfl hch
    | some d =>
      rw [hd] at hch
      dsimp only at hch
      by_cases hs : d.source = some toothlitSource
      · exact ⟨d, rfl, hs⟩
      · rw [if_neg hs] at hch
        exact absurd rfl hch
  · rw [if_neg hw] at hch
    exact absurd rfl hch

/-- C5, witness: the theorem applied to a well-formed enable notification
arriving at a Light page, which does change the page state. -/
theorem message_guard_witness :
    (⟨true, some ⟨some toothlitSource, some "enableDarkMode"⟩⟩ :
        MessageEvent).sourceIsWindow = true ∧
    ∃ d, (⟨true, some ⟨some toothlitSource, some "enableDarkMode"⟩⟩ :
        MessageEvent).data = some d ∧ d.source = some toothlitSource :=
  message_guard ⟨true, some ⟨some toothlitSource, some "enableDarkMode"⟩⟩
    lightPage (by decide)

/-- C6, counterexample: `about:blank` is a URL lacking a hostname (an
internal/special page), yet `getDomainFromUrl` returns the empty string,
not `null`. -/
theorem resolve_null_counterexample :
    getDomainFromUrl "about:blank" ≠ none ∧
    getDomainFromUrl "about:blank" = some "" := by
  constructor
  · decide
  · decide

/-- C6, amended: `getDomainFromUrl` returns `null` for malformed input and
non-URL strings (while for well-formed URLs lacking a hostname it returns
the empty string, which the caller treats the same as `null`); in
particular it returns `null` on `"not a url"`, and in that case the click
handler performs no store mutation, no icon update and no notification. -/
theorem resolve_null_guard :
    getDomainFromUrl "not a url" = none ∧
    ∀ (df : Bool) (st : StorageState) (tabId : Nat),
      handleClick df st ⟨"not a url", tabId⟩ = (st, []) := by
  refine ⟨by decide, ?_⟩
  intro df st tabId
  unfold handleClick
  rw [show getDomainFromUrl "not a url" = none from by decide]

/-- C7: when delivery of the toggle notification fails, nothing is rolled
back: the store ends up holding the flipped preference for the domain, a
subsequent read returns the flipped value, the icon was set to the new
state, and the notification is recorded as undelivered. -/
theorem no_rollback (st : StorageState) (tab : Tab) (domain : String)
    (hres : getDomainFromUrl tab.url = some domain) (hne : domain ≠ "") :
    (handleClick true st tab).1 =
      setDomainState false st domain (!getDomainState (Except.ok st) domain) ∧
    getDomainState (Except.ok (handleClick true st tab).1) domain =
      !getDomainState (Except.ok st) domain ∧
    BgEvent.setIcon tab.id (!getDomainState (Except.ok st) domain)
      ∈ (handleClick true st tab).2 ∧
    BgEvent.notify tab.id
      ⟨toothlitSource,
       if !getDomainState (Except.ok st) domain then MsgAction.enableDarkMode
       else MsgAction.disableDarkMode⟩ false
      ∈ (handleClick true st tab).2 := by
  rw [handleClick_eq true st tab domain hres hne]
  refine ⟨rfl, getDomainState_setDomainState st domain _, ?_, ?_⟩
  · simp
  · simp

/-- C7, witness: the theorem applied to a click on `https://news.example/a`
with empty storage and failing delivery. -/
theorem no_rollback_witness :
    (handleClick true none ⟨"https://news.example/a", 7⟩).1 =
      setDomainState false none "news.example"
        (!getDomainState (Except.ok none) "news.example") ∧
    getDomainState (Except.ok (handleClick true none
        ⟨"https://news.example/a", 7⟩).1) "news.example" =
      !getDomainState (Except.ok none) "news.example" ∧
    BgEvent.setIcon 7 (!getDomainState (Except.ok none) "news.example")
      ∈ (handleClick true none ⟨"https://news.example/a", 7⟩).2 ∧
    BgEvent.notify 7
      ⟨toothlitSource,
       if !getDomainState (Except.ok none) "news.example" then
         MsgAction.enableDarkMode
       else MsgAction.disableDarkMode⟩ false
      ∈ (handleClick true none ⟨"https://news.example/a", 7⟩).2 :=
  no_rollback none ⟨"https://news.example/a", 7⟩ "news.example"
    (by decide) (by decide)

/-- C8: on page-context initialization the content script reads the store
for the current domain; when the stored state is true it moves the Light
page to the Dark state (property set, one fallback element) with no
notification involved, and when the stored state is false or absent the
page stays Light. -/
theorem init_from_store (st1 st2 : StorageState) (d1 d2 : String)
    (h1 : getDomainState (Except.ok st1) d1 = true)
    (h2 : getDomainState (Except.ok st2) d2 = false) :
    initPageStyler (Except.ok st1) d1 lightPage = ⟨true, 1⟩ ∧
    initPageStyler (Except.ok st2) d2 lightPage = lightPage := by
  have h1x : (storeGet (st1.getD []) d1).getD false = true := h1
  have h2x : (storeGet (st2.getD []) d2).getD false = false := h2
  constructor
  · show (if (storeGet (st1.getD []) d1).getD false = true then
        enableDarkMode lightPage else lightPage) = ⟨true, 1⟩
    rw [h1x]
    rfl
  · show (if (storeGet (st2.getD []) d2).getD false = true then
        enableDarkMode lightPage else lightPage) = lightPage
    rw [h2x]
    rfl

/-- C8, witness: the theorem applied to a store holding
`news.example: true` and to empty storage. -/
theorem init_from_store_witness :
    initPageStyler (Except.ok (some [("news.example", true)])) "news.example"
      lightPage = ⟨true, 1⟩ ∧
    initPageStyler (Except.ok none) "news.example" lightPage = lightPage :=
  init_from_store (some [("news.example", true)]) none
    "news.example" "news.example" (by decide) (by decide)

/-- C9, counterexample: `foo://ABC` is an absolute URL, and
`getDomainFromUrl` returns its opaque hostname `ABC` without lowercasing
it (non-special schemes keep the case of their hosts). -/
theorem resolve_lowercase_counterexample :
    getDomainFromUrl "foo://ABC" = some "ABC" ∧
    ("ABC" : String).data.map Char.toLower ≠ ("ABC" : String).data := by
  constructor
  · decide
  · decide

/-- C9, amended: every hostname returned by `getDomainFromUrl` is free of
the port (it contains no colon); for special-scheme URLs (http, https, ws,
wss, ftp, file) the returned hostname is lowercase (lowercasing it again
changes nothing); and in particular
`getDomainFromUrl "https://Example.com:443/path" = "example.com"`. -/
theorem resolve_hostname_normalized (url1 h1 : String)
    (hres1 : getDomainFromUrl url1 = some h1)
    (url2 scheme : String) (rest : List Char) (h2 : String)
    (hparts : urlParts url2 = some (scheme, rest))
    (hspec : specialSchemes.contains scheme = true)
    (hres2 : getDomainFromUrl url2 = some h2) :
    (¬ ':' ∈ h1.data) ∧
    h2.data.map Char.toLower = h2.data ∧
    getDomainFromUrl "https://Example.com:443/path" = some "example.com" :=
  ⟨getDomainFromUrl_no_colon hres1,
   getDomainFromUrl_special_lower hparts hspec hres2,
   by decide⟩

/-- C9, witness: the amended claim applied to
`https://Example.com:443/path` for both the port-free part and the
lowercase part. -/
theorem resolve_hostname_normalized_witness :
    (¬ ':' ∈ ("example.com" : String).data) ∧
    ("example.com" : String).data.map Char.toLower =
      ("example.com" : String).data ∧
    getDomainFromUrl "https://Example.com:443/path" = some "example.com" :=
  resolve_hostname_normalized "https://Example.com:443/path" "example.com"
    (by decide) "https://Example.com:443/path" "https"
    ("//Example.com:443/path".data) "example.com"
    (by decide) (by decide) (by decide)

/-- C10: for every URL that parses successfully but has an empty hostname
(`about:blank` is such a URL: `getDomainFromUrl` returns the empty string
rather than `null` on it), the click handler still performs no store
mutation, no icon update and no notification, because its falsy guard
treats the empty string like `null`. -/
theorem empty_hostname_guard (url : String) (df : Bool) (st : StorageState)
    (tabId : Nat) (hres : getDomainFromUrl url = some "") :
    getDomainFromUrl "about:blank" = some "" ∧
    handleClick df st ⟨url, tabId⟩ = (st, []) := by
  refine ⟨by decide, ?_⟩
  unfold handleClick
  rw [show (⟨url, tabId⟩ : Tab).url = url from rfl, hres]
  rfl

/-- C10, witness: the theorem applied to `about:blank`, which parses with an
empty hostname. -/
theorem empty_hostname_guard_witness :
    getDomainFromUrl "about:blank" = some "" ∧
    handleClick false (some []) ⟨"about:blank", 5⟩ = (some [], []) :=
  empty_hostname_guard "about:blank" false (some []) 5 (by decide)

end ToothLit
